import Mathlib

set_option maxRecDepth 10000

/-!
Verification of the trading repository's numeric and ledger logic.

Prices, balances and quantities are modelled as rationals (`ℚ`): every
claim under study is about exact decimal arithmetic, and the source's
float rounding never approaches a representability boundary in the
inputs the claims mention.  Python's `round(x, d)` is modelled by
`pyRound d` (round to `d` decimal places); no claim exercises a rounding
tie, so the tie-breaking convention is immaterial.
-/

/-- Python's `round(x, d)`: round to `d` decimal places.  Modelled as
round-half-up via the floor; no claim under study exercises a rounding tie,
so the difference from Python's round-half-to-even convention is immaterial. -/
def pyRound (d : ℕ) (x : ℚ) : ℚ :=
  ((⌊x * 10 ^ d + 1 / 2⌋ : ℤ) : ℚ) / 10 ^ d

namespace RiskManager

/-- `RiskManager.calculate_position_size` (src/risk_manager.py, lines 32-69).
`max_position_size` comes from `Config.MAX_POSITION_SIZE`, passed here
explicitly.  Returns 0 for `entry_price <= stop_loss_price`; otherwise the
risk-based size capped at the maximum, zeroed below the 0.001 minimum and
rounded to 8 decimals. -/
def calculate_position_size (max_position_size : ℚ)
    (account_balance entry_price stop_loss_price : ℚ)
    (risk_percent : ℚ := 1) : ℚ :=
  if entry_price ≤ stop_loss_price then 0
  else
    let risk_per_unit := |entry_price - stop_loss_price|
    let risk_amount := account_balance * (risk_percent / 100)
    let position_size := risk_amount / risk_per_unit
    let position_size := min position_size max_position_size
    if position_size < 1 / 1000 then 0
    else pyRound 8 position_size

/-- Default of `Config.MAX_POSITION_SIZE` (src/config.py line 26) when the
environment does not override it. -/
def defaultMaxPositionSize : ℚ := 1 / 100

end RiskManager

namespace TradeSetupSizing

/-- `TradeSetup.calculate_position_size` (src/trade_setup.py, lines 43-57):
the same risk formula but with no cap and no minimum-size cutoff. -/
def calculate_position_size (account_balance entry_price sl_price : ℚ)
    (risk_percent : ℚ := 1) : ℚ :=
  if entry_price ≤ sl_price then 0
  else
    let risk_per_unit := |entry_price - sl_price|
    let risk_amount := account_balance * (risk_percent / 100)
    let position_size := risk_amount / risk_per_unit
    pyRound 8 position_size

end TradeSetupSizing

namespace TradeSetup

/-- `PositionType` (src/trade_setup.py, lines 15-18). -/
inductive PositionType
  | LONG
  | SHORT
deriving DecidableEq, Repr

/-- `TradeStatus` (src/trade_setup.py, lines 21-27). -/
inductive TradeStatus
  | PENDING
  | ACTIVE
  | SL_HIT
  | TARGET_HIT
  | CLOSED
deriving DecidableEq, Repr

/-- The fields of the trade dict built by `create_trade`
(src/trade_setup.py, lines 103-126).  The timestamp-based id is modelled
by the trade's creation index (`len(self.trades)` keeps ids unique);
time fields are omitted. -/
structure Trade where
  id : ℕ
  symbol : String
  position_type : PositionType
  entry_price : ℚ
  sl_price : ℚ
  target_price : ℚ
  quantity : ℚ
  risk_percent : ℚ
  risk_amount : ℚ
  reward_amount : ℚ
  riskReward : ℚ
  sl_percent : ℚ
  target_percent : ℚ
  status : TradeStatus
  exit_price : Option ℚ
  pnl : ℚ
  pnl_percent : ℚ
deriving DecidableEq, Repr

/-- The mutable state of a `TradeSetup` object.  Python's
`active_positions` list holds aliases of the dicts in `trades`; the alias
is modelled by storing ids and reading through `trades`. -/
structure State where
  account_balance : ℚ
  trades : List Trade
  active_positions : List ℕ
deriving DecidableEq, Repr

/-- `TradeSetup.__init__` (src/trade_setup.py, lines 33-36). -/
def init : State := { account_balance := 0, trades := [], active_positions := [] }

/-- `TradeSetup.set_account_balance` (src/trade_setup.py, lines 38-41). -/
def set_account_balance (s : State) (balance : ℚ) : State :=
  { s with account_balance := balance }

/-- `TradeSetup.calculate_position_size` applied to the object's balance. -/
def calculate_position_size (s : State) (entry_price sl_price : ℚ)
    (risk_percent : ℚ := 1) : ℚ :=
  TradeSetupSizing.calculate_position_size s.account_balance entry_price
    sl_price risk_percent

/-- `TradeSetup.create_trade` (src/trade_setup.py, lines 59-134): validates
the price ordering per side, auto-sizes the quantity when none is given,
computes risk/reward, and appends the new PENDING trade to the ledger.
`raise ValueError` is modelled by `Except.error`. -/
def create_trade (s : State) (symbol : String) (position_type : PositionType)
    (entry_price sl_price target_price : ℚ) (quantity : Option ℚ := none)
    (risk_percent : ℚ := 1) : Except String (State × Trade) :=
  match position_type with
  | .LONG =>
    if entry_price ≤ sl_price then
      .error "Stop loss must be below entry price for LONG position"
    else if target_price ≤ entry_price then
      .error "Target must be above entry price for LONG position"
    else .ok (create_trade.build s symbol position_type entry_price sl_price
      target_price quantity risk_percent)
  | .SHORT =>
    if sl_price ≤ entry_price then
      .error "Stop loss must be above entry price for SHORT position"
    else if entry_price ≤ target_price then
      .error "Target must be below entry price for SHORT position"
    else .ok (create_trade.build s symbol position_type entry_price sl_price
      target_price quantity risk_percent)
where
  /-- The post-validation body of `create_trade` (lines 89-128). -/
  build (s : State) (symbol : String) (position_type : PositionType)
      (entry_price sl_price target_price : ℚ) (quantity : Option ℚ)
      (risk_percent : ℚ) : State × Trade :=
    let quantity := match quantity with
      | none => calculate_position_size s entry_price sl_price risk_percent
      | some q => q
    let risk_amount := |entry_price - sl_price| * quantity
    let reward_amount := |target_price - entry_price| * quantity
    let rr := if risk_amount > 0 then reward_amount / risk_amount else 0
    let sl_percent := |(sl_price - entry_price) / entry_price| * 100
    let target_percent := |(target_price - entry_price) / entry_price| * 100
    let trade : Trade := {
      id := s.trades.length
      symbol := symbol
      position_type := position_type
      entry_price := pyRound 8 entry_price
      sl_price := pyRound 8 sl_price
      target_price := pyRound 8 target_price
      quantity := pyRound 8 quantity
      risk_percent := risk_percent
      risk_amount := pyRound 2 risk_amount
      reward_amount := pyRound 2 reward_amount
      riskReward := pyRound 2 rr
      sl_percent := pyRound 2 sl_percent
      target_percent := pyRound 2 target_percent
      status := .PENDING
      exit_price := none
      pnl := 0
      pnl_percent := 0 }
    ({ s with trades := s.trades ++ [trade] }, trade)

/-- `TradeSetup.get_trade` (src/trade_setup.py, lines 240-245). -/
def get_trade (s : State) (trade_id : ℕ) : Option Trade :=
  s.trades.find? (fun t => t.id == trade_id)

/-- In-place mutation of the dict with the given id (ids are unique). -/
def update_trade (s : State) (trade_id : ℕ) (f : Trade → Trade) : State :=
  { s with trades := s.trades.map (fun t => if t.id == trade_id then f t else t) }

/-- `TradeSetup._calculate_pnl` (src/trade_setup.py, lines 203-218). -/
def calc_pnl (t : Trade) (current_price : Option ℚ := none) : Trade :=
  let cp := match current_price with
    | some p => p
    | none => match t.exit_price with
      | some e => e
      | none => t.entry_price
  let pnl := match t.position_type with
    | .LONG => (cp - t.entry_price) * t.quantity
    | .SHORT => (t.entry_price - cp) * t.quantity
  { t with pnl := pyRound 2 pnl
           pnl_percent := pyRound 2 (pnl / (t.entry_price * t.quantity) * 100) }

/-- `TradeSetup.activate_trade` (src/trade_setup.py, lines 136-157): flips a
PENDING trade to ACTIVE, optionally overwrites the entry price with the
actual fill (Python's `if actual_entry_price:` is false for `None` and for
`0.0`), recomputes risk/reward amounts, and appends the trade to the
active-positions list.  The price ordering is not revalidated. -/
def activate_trade (s : State) (trade_id : ℕ)
    (actual_entry_price : Option ℚ := none) : Except String State :=
  match get_trade s trade_id with
  | none => .error "Trade not found"
  | some trade =>
    if trade.status ≠ .PENDING then .error "Trade is not pending"
    else
      let upd : Trade → Trade := fun t =>
        let t := { t with status := .ACTIVE }
        match actual_entry_price with
        | none => t
        | some p =>
          if p = 0 then t
          else
            let t := { t with entry_price := pyRound 8 p }
            { t with
              risk_amount := pyRound 2 (|t.entry_price - t.sl_price| * t.quantity)
              reward_amount := pyRound 2 (|t.target_price - t.entry_price| * t.quantity) }
      let s := update_trade s trade_id upd
      .ok { s with active_positions := s.active_positions ++ [trade_id] }

/-- Result statuses of `check_trade` (src/trade_setup.py, lines 159-201). -/
inductive CheckResult
  | not_active
  | sl_hit
  | target_hit
  | active
deriving DecidableEq, Repr

/-- `TradeSetup.check_trade` (src/trade_setup.py, lines 159-201): on an
ACTIVE trade, marks SL_HIT or TARGET_HIT when the current price crosses
the respective level (stop loss checked first), recording exit price and
realized P&L and dropping the trade from the active list; otherwise
records the unrealized P&L at the current price. -/
def check_trade (s : State) (trade_id : ℕ) (current_price : ℚ) :
    State × CheckResult :=
  match get_trade s trade_id with
  | none => (s, .not_active)
  | some trade =>
    if trade.status ≠ .ACTIVE then (s, .not_active)
    else
      let slHit : Bool := match trade.position_type with
        | .LONG => decide (current_price ≤ trade.sl_price)
        | .SHORT => decide (trade.sl_price ≤ current_price)
      let targetHit : Bool := match trade.position_type with
        | .LONG => decide (trade.target_price ≤ current_price)
        | .SHORT => decide (current_price ≤ trade.target_price)
      if slHit then
        let s := update_trade s trade_id (fun t =>
          calc_pnl { t with status := .SL_HIT
                            exit_price := some (pyRound 8 current_price) })
        ({ s with active_positions :=
            s.active_positions.filter (fun i => i ≠ trade_id) }, .sl_hit)
      else if targetHit then
        let s := update_trade s trade_id (fun t =>
          calc_pnl { t with status := .TARGET_HIT
                            exit_price := some (pyRound 8 current_price) })
        ({ s with active_positions :=
            s.active_positions.filter (fun i => i ≠ trade_id) }, .target_hit)
      else
        (update_trade s trade_id (fun t => calc_pnl t (some current_price)),
          .active)

/-- `TradeSetup.close_trade` (src/trade_setup.py, lines 220-238). -/
def close_trade (s : State) (trade_id : ℕ) (exit_price : ℚ) :
    Except String State :=
  match get_trade s trade_id with
  | none => .error "Trade not found"
  | some trade =>
    if trade.status ≠ .ACTIVE ∧ trade.status ≠ .PENDING then
      .error "Trade is not active"
    else
      let s := update_trade s trade_id (fun t =>
        calc_pnl { t with status := .CLOSED
                          exit_price := some (pyRound 8 exit_price) })
      .ok { s with active_positions :=
        s.active_positions.filter (fun i => i ≠ trade_id) }

/-- `TradeSetup.get_active_trades` (src/trade_setup.py, lines 247-249). -/
def get_active_trades (s : State) : List Trade :=
  s.trades.filter (fun t => t.status == .ACTIVE)

/-- The dicts aliased by `active_positions`. -/
def active_position_trades (s : State) : List Trade :=
  s.active_positions.filterMap (fun i => get_trade s i)

/-- `TradeSetup.get_long_positions` (src/trade_setup.py, lines 251-253). -/
def get_long_positions (s : State) : List Trade :=
  (active_position_trades s).filter (fun t => t.position_type == .LONG)

/-- `TradeSetup.get_short_positions` (src/trade_setup.py, lines 255-257). -/
def get_short_positions (s : State) : List Trade :=
  (active_position_trades s).filter (fun t => t.position_type == .SHORT)

/-- The statuses counted as closed by `get_trade_summary` (line 263-264). -/
def is_closed_status (st : TradeStatus) : Bool :=
  st == .SL_HIT || st == .TARGET_HIT || st == .CLOSED

/-- The dict returned by `get_trade_summary`. -/
structure Summary where
  account_balance : ℚ
  total_trades : ℕ
  active_trades : ℕ
  closed_trades : ℕ
  long_positions : ℕ
  short_positions : ℕ
  total_pnl : ℚ
  winning_trades : ℕ
  losing_trades : ℕ
  win_rate : ℚ
deriving DecidableEq, Repr

/-- `TradeSetup.get_trade_summary` (src/trade_setup.py, lines 259-281).
Note that `winning_trades` and `losing_trades` count over *all* trades in
the ledger (any status), while the win-rate denominator counts only the
closed ones. -/
def get_trade_summary (s : State) : Summary :=
  let total_trades := s.trades.length
  let active_trades := (get_active_trades s).length
  let closed_trades :=
    (s.trades.filter (fun t => is_closed_status t.status)).length
  let total_pnl := (s.trades.map (fun t => t.pnl)).sum
  let winning_trades := (s.trades.filter (fun t => decide (0 < t.pnl))).length
  let losing_trades := (s.trades.filter (fun t => decide (t.pnl < 0))).length
  { account_balance := s.account_balance
    total_trades := total_trades
    active_trades := active_trades
    closed_trades := closed_trades
    long_positions := (get_long_positions s).length
    short_positions := (get_short_positions s).length
    total_pnl := pyRound 2 total_pnl
    winning_trades := winning_trades
    losing_trades := losing_trades
    win_rate := pyRound 2 (if 0 < closed_trades then
      (winning_trades : ℚ) / (closed_trades : ℚ) * 100 else 0) }

/-- The price ordering the specification asserts for a recorded trade. -/
def price_ordering_ok (t : Trade) : Bool :=
  match t.position_type with
  | .LONG => decide (t.sl_price < t.entry_price ∧ t.entry_price < t.target_price)
  | .SHORT => decide (t.target_price < t.entry_price ∧ t.entry_price < t.sl_price)

/-- Trace step: create a valid LONG trade (entry 100, SL 90, target 110,
quantity 1) and keep the resulting state. -/
def createLongStep (s : State) : State :=
  match create_trade s "BTCUSDT" .LONG 100 90 110 (some 1) 1 with
  | .ok (s2, _) => s2
  | .error _ => s

/-- Trace step: activate trade `i` at its planned entry. -/
def activateStep (s : State) (i : ℕ) : State :=
  match activate_trade s i none with
  | .ok s2 => s2
  | .error _ => s

/-- Trace step: manually close trade `i` at price `p`. -/
def closeStep (s : State) (i : ℕ) (p : ℚ) : State :=
  match close_trade s i p with
  | .ok s2 => s2
  | .error _ => s

/-- Ledger after creating a valid LONG trade (entry 100, SL 90, target 110)
and then activating it with an actual fill of 80, below its stop loss. -/
def ledgerAfterActivateAt80 : State :=
  match activate_trade (createLongStep init) 0 (some 80) with
  | .ok s => s
  | .error _ => init

/-- Ledger holding one CLOSED losing trade (P&L −5) and two ACTIVE trades
carrying positive unrealized P&L (+5 each, marked by `check_trade` at an
in-range price). -/
def mixedLedger : State :=
  let s := createLongStep init
  let s := activateStep s 0
  let s := closeStep s 0 95
  let s := createLongStep s
  let s := activateStep s 1
  let s := (check_trade s 1 105).1
  let s := createLongStep s
  let s := activateStep s 2
  (check_trade s 2 105).1

/-- Ledger holding a single CLOSED losing trade. -/
def closedLossLedger : State :=
  closeStep (activateStep (createLongStep init) 0) 0 95

/-- A SHORT trade created without an explicit quantity. -/
def shortTradeResult : Except String (State × Trade) :=
  create_trade init "BTCUSDT" .SHORT 100 110 90 none 1

end TradeSetup

namespace Backtesting

/-- Order sides used by the backtester's positions. -/
inductive Side
  | BUY
  | SELL
deriving DecidableEq, Repr

/-- The fields of an open position relevant to closing it
(src/backtesting.py, lines 279-288). -/
structure Position where
  entry_price : ℚ
  quantity : ℚ
  side : Side
deriving DecidableEq, Repr

/-- The trade dict recorded when a position closes
(src/backtesting.py, lines 241-253). -/
structure TradeRec where
  side : Side
  entry_price : ℚ
  exit_price : ℚ
  quantity : ℚ
  pnl : ℚ
  pnl_percent : ℚ
deriving DecidableEq, Repr

/-- The position-closing computation of `Backtester.run_backtest`
(src/backtesting.py, lines 220-253, repeated at 306-337 for end-of-data):
gross P&L by side minus commission charged on both legs. -/
def close_position (commission : ℚ) (pos : Position) (exit_price : ℚ) :
    TradeRec :=
  let pnl := match pos.side with
    | .BUY => (exit_price - pos.entry_price) * pos.quantity
    | .SELL => (pos.entry_price - exit_price) * pos.quantity
  let commission_cost :=
    (pos.entry_price + exit_price) * pos.quantity * commission
  let pnl := pnl - commission_cost
  { side := pos.side
    entry_price := pos.entry_price
    exit_price := exit_price
    quantity := pos.quantity
    pnl := pnl
    pnl_percent := pnl / (pos.entry_price * pos.quantity) * 100 }

/-- The result counters of `run_backtest` the claims are about
(src/backtesting.py, lines 30-48). -/
structure BacktestResult where
  trades : List TradeRec
  winning_trades : ℕ
  losing_trades : ℕ
  total_trades : ℕ
  win_rate : ℚ
deriving DecidableEq, Repr

/-- Recording one position close: append the trade and bump exactly one of
the win/loss counters (`if pnl > 0` wins, else losses — lines 255-260 and
338-344). -/
def record_close (commission : ℚ) (acc : BacktestResult)
    (ev : Position × ℚ) : BacktestResult :=
  let t := close_position commission ev.1 ev.2
  { acc with
    trades := acc.trades ++ [t]
    winning_trades :=
      if 0 < t.pnl then acc.winning_trades + 1 else acc.winning_trades
    losing_trades :=
      if 0 < t.pnl then acc.losing_trades else acc.losing_trades + 1 }

/-- The sequence of position closes performed by one `run_backtest` call
(each element pairs the closed position with its exit price), followed by
the metric block (lines 346-352): `total_trades = len(trades)` and, when
any trade closed, `win_rate = winning/total × 100`. -/
def run_closes (commission : ℚ) (events : List (Position × ℚ)) :
    BacktestResult :=
  let r := events.foldl (record_close commission)
    { trades := [], winning_trades := 0, losing_trades := 0,
      total_trades := 0, win_rate := 0 }
  let r := { r with total_trades := r.trades.length }
  if 0 < r.trades.length then
    { r with win_rate := if 0 < r.total_trades then
        (r.winning_trades : ℚ) / (r.total_trades : ℚ) * 100 else 0 }
  else r

/-- The net-P&L equation the specification states for a recorded trade. -/
def pnl_formula (commission : ℚ) (t : TradeRec) : Prop :=
  t.pnl = (match t.side with
    | .BUY => (t.exit_price - t.entry_price) * t.quantity
    | .SELL => (t.entry_price - t.exit_price) * t.quantity)
    - (t.entry_price + t.exit_price) * t.quantity * commission

end Backtesting

namespace DataIngestion

/-- Does `needle` occur at the head of `hay`? -/
def listStartsWith : List Char → List Char → Bool
  | [], _ => true
  | _ :: _, [] => false
  | a :: as, b :: bs => a == b && listStartsWith as bs

/-- Python's substring containment `needle in hay`. -/
def containsSub (needle : List Char) : List Char → Bool
  | [] => listStartsWith needle []
  | c :: cs => listStartsWith needle (c :: cs) || containsSub needle cs

/-- Number of positions of `hay` at which `needle` occurs (the
occurrence count the specification describes). -/
def countOccur (needle : List Char) : List Char → ℕ
  | [] => if listStartsWith needle [] then 1 else 0
  | c :: cs =>
    (if listStartsWith needle (c :: cs) then 1 else 0) + countOccur needle cs

/-- The fixed positive-word list (src/data_ingestion.py, line 232). -/
def positive_words : List String :=
  ["profit", "gain", "rise", "surge", "growth", "positive", "bullish",
   "up", "increase"]

/-- The fixed negative-word list (src/data_ingestion.py, line 233). -/
def negative_words : List String :=
  ["loss", "fall", "decline", "drop", "negative", "bearish", "down",
   "decrease", "crash"]

/-- `NewsDataIngestion._analyze_sentiment` (src/data_ingestion.py, lines
226-243): 0.0 for empty text; otherwise each keyword found as a substring
of the lower-cased text contributes 1 (`sum(1 for word in words if word
in text_lower)`), and the score `(pos−neg)/(pos+neg+1)` is clipped to
`[-1, 1]`. -/
def analyze_sentiment (text : String) : ℚ :=
  if text.data = [] then 0
  else
    let text_lower := text.data.map Char.toLower
    let positive_count :=
      (positive_words.filter (fun w => containsSub w.data text_lower)).length
    let negative_count :=
      (negative_words.filter (fun w => containsSub w.data text_lower)).length
    if positive_count = 0 ∧ negative_count = 0 then 0
    else
      let score := ((positive_count : ℚ) - (negative_count : ℚ))
        / ((positive_count : ℚ) + (negative_count : ℚ) + 1)
      min (max score (-1)) 1

/-- The scorer as the specification words it, for comparison: `pos` and
`neg` are *occurrence* counts, so a word repeated k times contributes k. -/
def sentiment_spec_occurrences (text : String) : ℚ :=
  if text.data = [] then 0
  else
    let text_lower := text.data.map Char.toLower
    let pos := (positive_words.map (fun w => countOccur w.data text_lower)).sum
    let neg := (negative_words.map (fun w => countOccur w.data text_lower)).sum
    if pos = 0 ∧ neg = 0 then 0
    else
      min (max (((pos : ℚ) - (neg : ℚ)) / ((pos : ℚ) + (neg : ℚ) + 1)) (-1)) 1

end DataIngestion

namespace ChartPatterns

/-- The `breakout_direction` argument of `validate_breakout`. -/
inductive BreakoutDir
  | up
  | down
deriving DecidableEq, Repr

/-- pandas `Series.tail(n).mean()`: mean of the last `min(n, len)` values
(the current bar included). -/
def tailMean (n : ℕ) (l : List ℚ) : ℚ :=
  let t := l.drop (l.length - n)
  t.sum / (t.length : ℚ)

/-- `ChartPatternDetector.validate_breakout` (src/chart_patterns.py, lines
40-76).  `volumes = none` models a DataFrame without a volume column
(validation skipped); otherwise the current bar's volume must reach
`volume_threshold` (1.5) times the trailing-20 mean and the close must be
at least 0.5% beyond the breakout level in the expected direction. -/
def validate_breakout (volumes : Option (List ℚ)) (closes : List ℚ)
    (breakout_price : ℚ) (breakout_direction : BreakoutDir)
    (volume_threshold : ℚ := 3 / 2) : Bool :=
  match volumes with
  | none => true
  | some vs =>
    let recent_volume := tailMean 20 vs
    let current_volume := vs.getLastD 0
    let volume_confirmation :=
      decide (recent_volume * volume_threshold ≤ current_volume)
    let current_price := closes.getLastD 0
    let price_confirmation := match breakout_direction with
      | .down => decide (current_price < breakout_price * (995 / 1000))
      | .up => decide (breakout_price * (1005 / 1000) < current_price)
    volume_confirmation && price_confirmation

/-- The `'type'` field of a detected pattern dict. -/
inductive PatternType
  | Bullish
  | Bearish
deriving DecidableEq, Repr

/-- A detected pattern dict as produced by the `detect_*` methods
(src/chart_patterns.py): `strength` is only set by the head-and-shoulders
detectors, hence optional; `support`/`resistance`/`target` vary by
pattern. -/
structure Pattern where
  name : String
  ptype : PatternType
  breakout : Bool
  is_fake : Bool
  strength : Option ℚ
  confidence : ℚ
  support : Option ℚ
  resistance : Option ℚ
  target : Option ℚ
deriving DecidableEq, Repr

/-- The instance attributes of a `ChartPatternStrategy` object relevant to
`generate_signal`.  `ChartPatternStrategy.__init__` (lines 623-632) and
`Strategy.__init__` (src/strategy.py, lines 16-19) set `name`,
`positions`, `signals`, `detector` and `pattern_types` — but never
`min_pattern_strength` (that attribute lives on the detector), so the
lookup of `self.min_pattern_strength` finds nothing. -/
structure StrategyAttrs where
  min_pattern_strength : Option ℚ
deriving DecidableEq, Repr

/-- The attribute state after `ChartPatternStrategy.__init__`. -/
def chartPatternStrategyInit : StrategyAttrs := { min_pattern_strength := none }

/-- Python runtime errors the embedding tracks. -/
inductive PyError
  | attributeError
deriving DecidableEq, Repr

/-- The signal dict returned by `generate_signal`. -/
structure Signal where
  action : String
  confidence : ℚ
  price : ℚ
  stop_loss : Option ℚ
  take_profit : Option ℚ
  is_fake : Bool
deriving DecidableEq, Repr

/-- The pattern-filter loop of `generate_signal` (lines 646-661): skip
patterns without a breakout or flagged fake; reading
`self.min_pattern_strength` for the strength check raises
`AttributeError` when the attribute is absent. -/
def filter_valid (self : StrategyAttrs) : List Pattern →
    Except PyError (List Pattern)
  | [] => .ok []
  | p :: ps =>
    if p.breakout = false then filter_valid self ps
    else if p.is_fake = true then filter_valid self ps
    else
      match self.min_pattern_strength with
      | none => .error .attributeError
      | some m =>
        let pattern_strength := p.strength.getD (1 / 2)
        if pattern_strength < m then filter_valid self ps
        else
          match filter_valid self ps with
          | .error e => .error e
          | .ok rest => .ok (p :: rest)

/-- The ranking key of line 677: the average of strength (default 0) and
confidence. -/
def rank_key (p : Pattern) : ℚ := (p.strength.getD 0 + p.confidence) / 2

/-- A HOLD signal dict (lines 637, 643, 666-674). -/
def hold_signal (price : ℚ) (fake : Bool) : Signal :=
  { action := "HOLD", confidence := 0, price := price,
    stop_loss := none, take_profit := none, is_fake := fake }

/-- `ChartPatternStrategy.generate_signal` (src/chart_patterns.py, lines
634-708) after detection, given the detected pattern list and the current
price (the `len(data) ≥ 50` path; on shorter data the function returns
HOLD before detecting).  Python's stable descending sort is a stable
merge sort on the reversed key order. -/
def generate_signal (self : StrategyAttrs) (patterns : List Pattern)
    (current_price : ℚ) : Except PyError Signal :=
  if patterns.isEmpty then .ok (hold_signal current_price false)
  else
    match filter_valid self patterns with
    | .error e => .error e
    | .ok valid_patterns =>
      if valid_patterns.isEmpty then
        if (patterns.filter (fun p => p.is_fake)).isEmpty then
          .ok (hold_signal current_price false)
        else .ok (hold_signal current_price true)
      else
        match valid_patterns.mergeSort
          (fun a b => decide (rank_key b ≤ rank_key a)) with
        | [] => .ok (hold_signal current_price false)
        | best :: _ =>
          match best.ptype with
          | .Bullish => .ok {
              action := "BUY"
              confidence := best.strength.getD best.confidence
              price := current_price
              stop_loss := some (best.support.getD
                (current_price * (98 / 100)))
              take_profit := some (best.target.getD
                (current_price * (103 / 100)))
              is_fake := false }
          | .Bearish => .ok {
              action := "SELL"
              confidence := best.strength.getD best.confidence
              price := current_price
              stop_loss := some (best.resistance.getD
                (current_price * (102 / 100)))
              take_profit := some (best.target.getD
                (current_price * (97 / 100)))
              is_fake := false }

end ChartPatterns

/-- `pyRound` is the identity on integers. -/
theorem pyRound_intCast (d : ℕ) (n : ℤ) : pyRound d (n : ℚ) = n := by
  unfold pyRound
  have h : ((n : ℚ) * 10 ^ d + 1 / 2) = ((n * 10 ^ d : ℤ) : ℚ) + 1 / 2 := by
    push_cast; ring
  have hhalf : (⌊(1 / 2 : ℚ)⌋ : ℤ) = 0 := by norm_num
  rw [h, add_comm, Int.floor_add_int, hhalf, zero_add]
  push_cast
  have hp : (10 : ℚ) ^ d ≠ 0 := by positivity
  field_simp

/-- `pyRound d` never exceeds an integer bound that the value respects.
In particular a value at most `100` rounds to at most `100`. -/
theorem pyRound_le_of_le (d : ℕ) (x : ℚ) (B : ℤ) (h : x ≤ (B : ℚ)) :
    pyRound d x ≤ (B : ℚ) := by
  unfold pyRound
  have h10 : (0 : ℚ) < 10 ^ d := by positivity
  rw [div_le_iff₀ h10]
  have hx : x * 10 ^ d ≤ ((B * 10 ^ d : ℤ) : ℚ) := by
    push_cast
    exact mul_le_mul_of_nonneg_right h (le_of_lt h10)
  have hr : ⌊x * 10 ^ d + 1 / 2⌋ ≤ B * 10 ^ d := by
    have h2 := Int.floor_le_floor (α := ℚ)
      (add_le_add_right hx (1 / 2))
    have hhalf : (⌊(1 / 2 : ℚ)⌋ : ℤ) = 0 := by norm_num
    rw [add_comm ((B * 10 ^ d : ℤ) : ℚ) (1 / 2), Int.floor_add_int, hhalf,
      zero_add] at h2
    exact h2
  calc ((⌊x * 10 ^ d + 1 / 2⌋ : ℤ) : ℚ) ≤ ((B * 10 ^ d : ℤ) : ℚ) := by
        exact_mod_cast hr
    _ = (B : ℚ) * 10 ^ d := by push_cast; ring

/-- C3: `RiskManager.calculate_position_size` returns
`(balance × risk_percent / 100) / |entry − stop|` capped at
`max_position_size` and rounded to 8 decimals; it returns 0 when
`entry ≤ stop` or when the capped result is below 0.001; with
balance 100000, entry 100, stop 98, risk 1% and any cap of at least 500
the result is exactly 500. -/
theorem riskManager_position_size_spec
    (maxPos balance entry stop r : ℚ) :
    (entry ≤ stop → RiskManager.calculate_position_size maxPos balance entry stop r = 0) ∧
    (stop < entry →
      min (balance * r / 100 / |entry - stop|) maxPos < 1 / 1000 →
      RiskManager.calculate_position_size maxPos balance entry stop r = 0) ∧
    (stop < entry →
      1 / 1000 ≤ min (balance * r / 100 / |entry - stop|) maxPos →
      RiskManager.calculate_position_size maxPos balance entry stop r
        = pyRound 8 (min (balance * r / 100 / |entry - stop|) maxPos)) ∧
    (500 ≤ maxPos →
      RiskManager.calculate_position_size maxPos 100000 100 98 1 = 500) := by
  have harg : ∀ b e s q : ℚ, b * (q / 100) / |e - s| = b * q / 100 / |e - s| := by
    intro b e s q; ring_nf
  refine ⟨?_, ?_, ?_, ?_⟩
  · intro h
    unfold RiskManager.calculate_position_size
    rw [if_pos h]
  · intro h hlt
    unfold RiskManager.calculate_position_size
    rw [if_neg (not_le.mpr h)]
    dsimp only
    rw [harg, if_pos hlt]
  · intro h hge
    unfold RiskManager.calculate_position_size
    rw [if_neg (not_le.mpr h)]
    dsimp only
    rw [harg, if_neg (not_lt.mpr hge)]
  · intro hcap
    unfold RiskManager.calculate_position_size
    have h1 : ¬ ((100 : ℚ) ≤ 98) := by norm_num
    rw [if_neg h1]
    dsimp only
    have h2 : (100000 : ℚ) * (1 / 100) / |(100 : ℚ) - 98| = 500 := by norm_num
    rw [h2, min_eq_left hcap]
    have h3 : ¬ ((500 : ℚ) < 1 / 1000) := by norm_num
    rw [if_neg h3]
    exact_mod_cast pyRound_intCast 8 500

/-- Witness for C3: with a cap of 1000 the concrete example sizes to 500. -/
theorem riskManager_position_size_spec_witness :
    RiskManager.calculate_position_size 1000 100000 100 98 1 = 500 :=
  (riskManager_position_size_spec 1000 100000 100 98 1).2.2.2 (by norm_num)

/-- C4 counterexample: with the default `Config.MAX_POSITION_SIZE = 0.01`,
the quantity `TradeSetup.create_trade` auto-computes (via
`TradeSetup.calculate_position_size`, uncapped) differs from
`RiskManager.calculate_position_size` on balance 100000, entry 100,
stop 98, risk 1%: 500 versus the capped 0.01. -/
theorem sizing_mismatch_at_default_cap :
    TradeSetupSizing.calculate_position_size 100000 100 98 1 = 500 ∧
    RiskManager.calculate_position_size RiskManager.defaultMaxPositionSize
      100000 100 98 1 = 1 / 100 ∧
    (500 : ℚ) ≠ 1 / 100 := by
  refine ⟨?_, ?_, by norm_num⟩ <;> with_unfolding_all decide

/-- C4 amended: the two sizing functions agree when `entry ≤ stop`
(both return 0) and whenever the uncapped risk-formula size lies between
the 0.001 minimum and `max_position_size`; `TradeSetup`'s auto-sizing
omits the cap and the minimum cutoff, so outside that range they differ. -/
theorem sizing_agree_when_uncapped
    (maxPos balance entry sl r : ℚ) :
    (entry ≤ sl →
      TradeSetupSizing.calculate_position_size balance entry sl r
        = RiskManager.calculate_position_size maxPos balance entry sl r) ∧
    (sl < entry →
      balance * (r / 100) / |entry - sl| ≤ maxPos →
      1 / 1000 ≤ balance * (r / 100) / |entry - sl| →
      TradeSetupSizing.calculate_position_size balance entry sl r
        = RiskManager.calculate_position_size maxPos balance entry sl r) := by
  constructor
  · intro h
    unfold TradeSetupSizing.calculate_position_size
      RiskManager.calculate_position_size
    rw [if_pos h, if_pos h]
  · intro h hcap hmin
    unfold TradeSetupSizing.calculate_position_size
      RiskManager.calculate_position_size
    rw [if_neg (not_le.mpr h), if_neg (not_le.mpr h)]
    dsimp only
    rw [min_eq_left hcap, if_neg (not_lt.mpr hmin)]

/-- Witness for C4's amended statement: below the cap (here 1000) the two
sizing functions agree on the concrete example. -/
theorem sizing_agree_when_uncapped_witness :
    TradeSetupSizing.calculate_position_size 100000 100 98 1
      = RiskManager.calculate_position_size 1000 100000 100 98 1 :=
  (sizing_agree_when_uncapped 1000 100000 100 98 1).2 (by norm_num)
    (by rw [show |(100 : ℚ) - 98| = 2 by norm_num]; norm_num)
    (by rw [show |(100 : ℚ) - 98| = 2 by norm_num]; norm_num)

/-- C1 counterexample: the ledger does *not* always satisfy the per-side
price ordering.  A valid LONG trade (entry 100, SL 90, target 110) is
created, then `activate_trade` overwrites its entry price with an actual
fill of 80 without revalidating; the resulting ledger holds a LONG trade
whose stop loss (90) is above its entry (80). -/
theorem activate_trade_breaks_price_ordering :
    (TradeSetup.create_trade TradeSetup.init "BTCUSDT" .LONG 100 90 110
      (some 1) 1).toOption.isSome = true ∧
    (TradeSetup.activate_trade (TradeSetup.createLongStep TradeSetup.init) 0
      (some 80)).toOption.isSome = true ∧
    TradeSetup.ledgerAfterActivateAt80.trades.all TradeSetup.price_ordering_ok
      = false := by
  refine ⟨?_, ?_, ?_⟩ <;> with_unfolding_all decide

/-- C1 amended: `create_trade` succeeds exactly when the side's price
ordering holds (LONG: `sl < entry < target`; SHORT:
`target < entry < sl`) and raises a domain error otherwise — in particular
the LONG example with entry 100, SL 105, target 110 raises — and every
trade satisfies its side's ordering *at creation* (for prices already at
8-decimal precision).  The ledger-wide invariant fails only because
`activate_trade` may later overwrite the entry price without
revalidation. -/
theorem create_trade_validates_ordering
    (s : TradeSetup.State) (sym : String) (pt : TradeSetup.PositionType)
    (e sl tg : ℚ) (q : Option ℚ) (r : ℚ) :
    ((TradeSetup.create_trade s sym pt e sl tg q r).toOption.isSome = true ↔
      match pt with
      | .LONG => sl < e ∧ e < tg
      | .SHORT => tg < e ∧ e < sl) ∧
    (TradeSetup.create_trade TradeSetup.init "BTCUSDT" .LONG 100 105 110
      none 1).toOption.isSome = false ∧
    (∀ s2 t, TradeSetup.create_trade s sym pt e sl tg q r = .ok (s2, t) →
      pyRound 8 e = e → pyRound 8 sl = sl → pyRound 8 tg = tg →
      TradeSetup.price_ordering_ok t = true ∧
        s2.trades = s.trades ++ [t]) := by
  refine ⟨?_, by with_unfolding_all decide, ?_⟩
  · cases pt with
    | LONG =>
      unfold TradeSetup.create_trade
      by_cases h1 : e ≤ sl
      · rw [if_pos h1]
        exact iff_of_false (by simp [Except.toOption])
          (fun hc => absurd hc.1 (not_lt.mpr h1))
      · by_cases h2 : tg ≤ e
        · rw [if_neg h1, if_pos h2]
          exact iff_of_false (by simp [Except.toOption])
            (fun hc => absurd hc.2 (not_lt.mpr h2))
        · rw [if_neg h1, if_neg h2]
          exact iff_of_true (by simp [Except.toOption])
            ⟨not_le.mp h1, not_le.mp h2⟩
    | SHORT =>
      unfold TradeSetup.create_trade
      by_cases h1 : sl ≤ e
      · rw [if_pos h1]
        exact iff_of_false (by simp [Except.toOption])
          (fun hc => absurd hc.2 (not_lt.mpr h1))
      · by_cases h2 : e ≤ tg
        · rw [if_neg h1, if_pos h2]
          exact iff_of_false (by simp [Except.toOption])
            (fun hc => absurd hc.1 (not_lt.mpr h2))
        · rw [if_neg h1, if_neg h2]
          exact iff_of_true (by simp [Except.toOption])
            ⟨not_le.mp h2, not_le.mp h1⟩
  · intro s2 t h he hsl htg
    cases pt with
    | LONG =>
      unfold TradeSetup.create_trade at h
      by_cases h1 : e ≤ sl
      · rw [if_pos h1] at h
        exact Except.noConfusion h
      · by_cases h2 : tg ≤ e
        · rw [if_neg h1, if_pos h2] at h
          exact Except.noConfusion h
        · rw [if_neg h1, if_neg h2] at h
          injection h with hp
          have ht : t = (TradeSetup.create_trade.build s sym .LONG
              e sl tg q r).2 := by rw [hp]
          have hs2 : s2 = (TradeSetup.create_trade.build s sym .LONG
              e sl tg q r).1 := by rw [hp]
          constructor
          · rw [ht]
            show decide (pyRound 8 sl < pyRound 8 e ∧
              pyRound 8 e < pyRound 8 tg) = true
            rw [he, hsl, htg]
            exact decide_eq_true ⟨not_le.mp h1, not_le.mp h2⟩
          · rw [hs2, ht]
            rfl
    | SHORT =>
      unfold TradeSetup.create_trade at h
      by_cases h1 : sl ≤ e
      · rw [if_pos h1] at h
        exact Except.noConfusion h
      · by_cases h2 : e ≤ tg
        · rw [if_neg h1, if_pos h2] at h
          exact Except.noConfusion h
        · rw [if_neg h1, if_neg h2] at h
          injection h with hp
          have ht : t = (TradeSetup.create_trade.build s sym .SHORT
              e sl tg q r).2 := by rw [hp]
          have hs2 : s2 = (TradeSetup.create_trade.build s sym .SHORT
              e sl tg q r).1 := by rw [hp]
          constructor
          · rw [ht]
            show decide (pyRound 8 tg < pyRound 8 e ∧
              pyRound 8 e < pyRound 8 sl) = true
            rw [he, hsl, htg]
            exact decide_eq_true ⟨not_le.mp h2, not_le.mp h1⟩
          · rw [hs2, ht]
            rfl

/-- Witness for C1's amended statement: a LONG trade with the correct
ordering is accepted. -/
theorem create_trade_validates_ordering_witness :
    (TradeSetup.create_trade TradeSetup.init "BTCUSDT" .LONG 100 90 110
      none 1).toOption.isSome = true :=
  (create_trade_validates_ordering TradeSetup.init "BTCUSDT" .LONG 100 90 110
    none 1).1.mpr ⟨by norm_num, by norm_num⟩

/-- C9: a SHORT trade created without an explicit quantity is auto-sized
to 0: the sizing helper returns 0 whenever `entry ≤ stop`, and the SHORT
validation guarantees the stop is above the entry; the recorded trade
therefore has quantity 0, risk 0, reward 0 and risk/reward ratio 0. -/
theorem short_auto_quantity_zero
    (s : TradeSetup.State) (sym : String) (e sl tg r : ℚ)
    (s2 : TradeSetup.State) (t : TradeSetup.Trade)
    (h : TradeSetup.create_trade s sym .SHORT e sl tg none r = .ok (s2, t)) :
    t.quantity = 0 ∧ t.risk_amount = 0 ∧ t.reward_amount = 0 ∧
      t.riskReward = 0 := by
  have hzero : ∀ d : ℕ, pyRound d ((0 : ℤ) : ℚ) = 0 := fun d => by
    rw [pyRound_intCast]
    norm_num
  unfold TradeSetup.create_trade at h
  by_cases h1 : sl ≤ e
  · rw [if_pos h1] at h
    exact Except.noConfusion h
  · by_cases h2 : e ≤ tg
    · rw [if_neg h1, if_pos h2] at h
      exact Except.noConfusion h
    · rw [if_neg h1, if_neg h2] at h
      injection h with hp
      have ht : t = (TradeSetup.create_trade.build s sym .SHORT
          e sl tg none r).2 := by rw [hp]
      have hq : TradeSetup.calculate_position_size s e sl r = 0 := by
        unfold TradeSetup.calculate_position_size
          TradeSetupSizing.calculate_position_size
        rw [if_pos (le_of_lt (not_le.mp h1))]
      refine ⟨?_, ?_, ?_, ?_⟩
      · rw [ht]
        show pyRound 8 (TradeSetup.calculate_position_size s e sl r) = 0
        rw [hq]
        exact_mod_cast hzero 8
      · rw [ht]
        show pyRound 2 (|e - sl| *
          TradeSetup.calculate_position_size s e sl r) = 0
        rw [hq, mul_zero]
        exact_mod_cast hzero 2
      · rw [ht]
        show pyRound 2 (|tg - e| *
          TradeSetup.calculate_position_size s e sl r) = 0
        rw [hq, mul_zero]
        exact_mod_cast hzero 2
      · rw [ht]
        show pyRound 2 (if |e - sl| *
            TradeSetup.calculate_position_size s e sl r > 0 then
            (|tg - e| * TradeSetup.calculate_position_size s e sl r) /
              (|e - sl| * TradeSetup.calculate_position_size s e sl r)
          else 0) = 0
        rw [hq, mul_zero, if_neg (lt_irrefl 0)]
        exact_mod_cast hzero 2

/-- Witness for C9: the concrete SHORT setup entry 100, SL 110, target 90
is accepted and records quantity, risk, reward and ratio all 0. -/
theorem short_auto_quantity_zero_witness :
    (TradeSetup.shortTradeResult.toOption.map (fun p =>
      (p.2.quantity, p.2.risk_amount, p.2.reward_amount, p.2.riskReward)))
      = some (0, 0, 0, 0) := by
  cases hc : TradeSetup.shortTradeResult with
  | error msg =>
    have hs : TradeSetup.shortTradeResult.toOption.isSome = true := by
      with_unfolding_all decide
    rw [hc] at hs
    simp [Except.toOption] at hs
  | ok p =>
    obtain ⟨s2, t⟩ := p
    unfold TradeSetup.shortTradeResult at hc
    obtain ⟨hq, hra, hrw, hrr⟩ :=
      short_auto_quantity_zero TradeSetup.init "BTCUSDT" 100 110 90 1 s2 t hc
    simp [Except.toOption, hq, hra, hrw, hrr]

/-- C8 counterexample: `get_trade_summary`'s win rate is *not* computed
over closed trades only.  In a ledger with one CLOSED losing trade and two
ACTIVE trades carrying positive unrealized P&L, no closed trade has
positive P&L (the claim's win rate would be 0), yet the reported rate is
200 — also refuting the claim that the rate never exceeds 100. -/
theorem win_rate_includes_open_trades :
    (TradeSetup.get_trade_summary TradeSetup.mixedLedger).win_rate = 200 ∧
    (TradeSetup.mixedLedger.trades.filter (fun t =>
      decide (0 < t.pnl) && TradeSetup.is_closed_status t.status)).length
      = 0 ∧
    (TradeSetup.get_trade_summary TradeSetup.mixedLedger).closed_trades
      = 1 := by
  refine ⟨?_, ?_, ?_⟩ <;> with_unfolding_all decide

/-- C8 amended: `get_trade_summary`'s win-rate numerator counts trades of
*any* status with positive (possibly unrealized) P&L, divided by the count
of closed trades; consequently the rate stays within 100 only when every
positive-P&L trade is closed (in general PENDING/ACTIVE trades do affect
it and it can exceed 100). -/
theorem win_rate_spec_over_all_trades (s : TradeSetup.State)
    (h : ∀ t ∈ s.trades, 0 < t.pnl →
      TradeSetup.is_closed_status t.status = true) :
    (TradeSetup.get_trade_summary s).winning_trades
      = s.trades.countP (fun t => decide (0 < t.pnl)) ∧
    (TradeSetup.get_trade_summary s).win_rate ≤ 100 := by
  constructor
  · exact (List.countP_eq_length_filter _ _).symm
  · show pyRound 2 _ ≤ 100
    have hb := pyRound_le_of_le 2
      (if 0 < (s.trades.filter (fun t =>
          TradeSetup.is_closed_status t.status)).length then
        (((s.trades.filter (fun t => decide (0 < t.pnl))).length : ℚ) /
          ((s.trades.filter (fun t =>
            TradeSetup.is_closed_status t.status)).length : ℚ)) * 100
      else 0) 100 ?_
    · exact_mod_cast hb
    · set c := (s.trades.filter (fun t =>
        TradeSetup.is_closed_status t.status)).length with hc
      set w := (s.trades.filter (fun t => decide (0 < t.pnl))).length with hw
      by_cases hpos : 0 < c
      · rw [if_pos hpos]
        have hwc : w ≤ c := by
          rw [hw, hc, ← List.countP_eq_length_filter,
            ← List.countP_eq_length_filter]
          exact List.countP_mono_left (fun t ht hp =>
            h t ht (of_decide_eq_true hp))
        have hcq : (0 : ℚ) < (c : ℚ) := by exact_mod_cast hpos
        have hdiv : ((w : ℚ) / (c : ℚ)) ≤ 1 := by
          rw [div_le_one hcq]
          exact_mod_cast hwc
        calc ((w : ℚ) / (c : ℚ)) * 100 ≤ 1 * 100 := by
              exact mul_le_mul_of_nonneg_right hdiv (by norm_num)
          _ = ((100 : ℤ) : ℚ) := by norm_num
      · rw [if_neg hpos]
        norm_num

/-- Witness for C8's amended statement: a ledger with a single closed
losing trade has every positive-P&L trade (vacuously) closed, so its
numerator matches the all-trades count and its win rate is within 100. -/
theorem win_rate_spec_over_all_trades_witness :
    (TradeSetup.get_trade_summary TradeSetup.closedLossLedger).winning_trades
      = TradeSetup.closedLossLedger.trades.countP (fun t =>
          decide (0 < t.pnl)) ∧
    (TradeSetup.get_trade_summary TradeSetup.closedLossLedger).win_rate
      ≤ 100 :=
  win_rate_spec_over_all_trades TradeSetup.closedLossLedger
    (by with_unfolding_all decide)

/-- Helper: the close computation satisfies the net-P&L equation. -/
theorem close_position_pnl (c : ℚ) (pos : Backtesting.Position) (x : ℚ) :
    Backtesting.pnl_formula c (Backtesting.close_position c pos x) := by
  cases hs : pos.side <;>
    · unfold Backtesting.pnl_formula Backtesting.close_position
      rw [hs]

/-- Helper: folding close events preserves the net-P&L equation on every
recorded trade. -/
theorem fold_closes_pnl (c : ℚ) :
    ∀ (events : List (Backtesting.Position × ℚ))
      (acc : Backtesting.BacktestResult),
      (∀ t ∈ acc.trades, Backtesting.pnl_formula c t) →
      ∀ t ∈ (events.foldl (Backtesting.record_close c) acc).trades,
        Backtesting.pnl_formula c t
  | [], acc, hacc => hacc
  | ev :: evs, acc, hacc => by
    intro t ht
    refine fold_closes_pnl c evs (Backtesting.record_close c acc ev) ?_ t ht
    intro u hu
    unfold Backtesting.record_close at hu
    dsimp only at hu
    rcases List.mem_append.mp hu with hl | hr
    · exact hacc u hl
    · rcases List.mem_singleton.mp hr with rfl
      exact close_position_pnl c ev.1 ev.2

/-- C5: every trade recorded by the backtester's closing block has net
P&L equal to the side-signed gross `(exit − entry) × quantity` minus a
commission of `(entry + exit) × quantity × commission_rate`. -/
theorem backtest_trade_pnl (commission : ℚ)
    (events : List (Backtesting.Position × ℚ)) (t : Backtesting.TradeRec)
    (ht : t ∈ (Backtesting.run_closes commission events).trades) :
    Backtesting.pnl_formula commission t := by
  have htr : (Backtesting.run_closes commission events).trades
      = (events.foldl (Backtesting.record_close commission)
        { trades := [], winning_trades := 0, losing_trades := 0,
          total_trades := 0, win_rate := 0 }).trades := by
    unfold Backtesting.run_closes
    dsimp only
    split_ifs <;> rfl
  rw [htr] at ht
  exact fold_closes_pnl commission events _ (by intro u hu; cases hu) t ht

/-- Witness for C5: a single LONG (BUY) trade entered at 100, exited at
110 with quantity 10 and commission rate 0.001 nets exactly 97.9
(gross 100 minus 2.1 commission). -/
theorem backtest_trade_pnl_witness :
    (Backtesting.close_position (1 / 1000) ⟨100, 10, .BUY⟩ 110).pnl
      = 979 / 10 := by
  have h := backtest_trade_pnl (1 / 1000)
    [(⟨100, 10, .BUY⟩, 110)]
    (Backtesting.close_position (1 / 1000) ⟨100, 10, .BUY⟩ 110)
    (by with_unfolding_all decide)
  unfold Backtesting.pnl_formula at h
  rw [h]
  with_unfolding_all decide

/-- Helper: folding close events preserves the counter partition
`winning + losing = length trades` and `winning = count of pnl > 0`. -/
theorem fold_closes_counts (c : ℚ) :
    ∀ (events : List (Backtesting.Position × ℚ))
      (acc : Backtesting.BacktestResult),
      acc.winning_trades + acc.losing_trades = acc.trades.length →
      acc.winning_trades
        = acc.trades.countP (fun t => decide (0 < t.pnl)) →
      (events.foldl (Backtesting.record_close c) acc).winning_trades
          + (events.foldl (Backtesting.record_close c) acc).losing_trades
        = (events.foldl (Backtesting.record_close c) acc).trades.length ∧
      (events.foldl (Backtesting.record_close c) acc).winning_trades
        = (events.foldl (Backtesting.record_close c) acc).trades.countP
            (fun t => decide (0 < t.pnl))
  | [], acc, h1, h2 => ⟨h1, h2⟩
  | ev :: evs, acc, h1, h2 => by
    rw [List.foldl_cons]
    refine fold_closes_counts c evs (Backtesting.record_close c acc ev) ?_ ?_
    · unfold Backtesting.record_close
      dsimp only
      by_cases hp : 0 < (Backtesting.close_position c ev.1 ev.2).pnl
      · rw [if_pos hp, if_pos hp, List.length_append, List.length_singleton]
        omega
      · rw [if_neg hp, if_neg hp, List.length_append, List.length_singleton]
        omega
    · unfold Backtesting.record_close
      dsimp only
      rw [List.countP_append, List.countP_cons, List.countP_nil]
      by_cases hp : 0 < (Backtesting.close_position c ev.1 ev.2).pnl
      · rw [if_pos hp, if_pos (decide_eq_true hp)]
        omega
      · rw [if_neg hp, if_neg (by simpa using hp)]
        omega

/-- C10: in every backtest result, each recorded trade increments exactly
one of the win/loss counters (zero P&L counts as a loss), so
`winning + losing = total_trades = len(trades)` with
`winning = #{trades with pnl > 0}`, and when any trade closed,
`win_rate = winning/total × 100`. -/
theorem backtest_counts_partition (commission : ℚ)
    (events : List (Backtesting.Position × ℚ)) :
    (Backtesting.run_closes commission events).winning_trades
        + (Backtesting.run_closes commission events).losing_trades
      = (Backtesting.run_closes commission events).total_trades ∧
    (Backtesting.run_closes commission events).total_trades
      = (Backtesting.run_closes commission events).trades.length ∧
    (Backtesting.run_closes commission events).winning_trades
      = (Backtesting.run_closes commission events).trades.countP
          (fun t => decide (0 < t.pnl)) ∧
    (0 < (Backtesting.run_closes commission events).total_trades →
      (Backtesting.run_closes commission events).win_rate
        = ((Backtesting.run_closes commission events).winning_trades : ℚ)
          / ((Backtesting.run_closes commission events).total_trades : ℚ)
          * 100) := by
  obtain ⟨h1, h2⟩ := fold_closes_counts commission events
    { trades := [], winning_trades := 0, losing_trades := 0,
      total_trades := 0, win_rate := 0 } rfl rfl
  unfold Backtesting.run_closes
  dsimp only
  split_ifs with hlen
  · refine ⟨h1, rfl, h2, fun _ => ?_⟩
    dsimp only
  · refine ⟨h1, rfl, h2, fun hpos => ?_⟩
    dsimp only at hpos
    exact absurd hpos hlen

/-- Witness for C10's conditional clause: one closed losing trade gives
`win_rate = 0/1 × 100`. -/
theorem backtest_counts_partition_witness :
    (Backtesting.run_closes (1 / 1000)
        [(⟨100, 10, .BUY⟩, 90)]).win_rate
      = ((Backtesting.run_closes (1 / 1000)
          [(⟨100, 10, .BUY⟩, 90)]).winning_trades : ℚ)
        / ((Backtesting.run_closes (1 / 1000)
          [(⟨100, 10, .BUY⟩, 90)]).total_trades : ℚ) * 100 :=
  (backtest_counts_partition (1 / 1000) [(⟨100, 10, .BUY⟩, 90)]).2.2.2
    (by with_unfolding_all decide)

/-- Helper: `analyze_sentiment` written with `countP` in place of the
filter length. -/
theorem analyze_sentiment_eq (text : String) :
    DataIngestion.analyze_sentiment text =
      if text.data = [] then 0
      else
        let p := DataIngestion.positive_words.countP (fun w =>
          DataIngestion.containsSub w.data (text.data.map Char.toLower))
        let n := DataIngestion.negative_words.countP (fun w =>
          DataIngestion.containsSub w.data (text.data.map Char.toLower))
        if p = 0 ∧ n = 0 then 0
        else min (max (((p : ℚ) - (n : ℚ)) / ((p : ℚ) + (n : ℚ) + 1)) (-1)) 1
    := by
  unfold DataIngestion.analyze_sentiment
  simp only [List.countP_eq_length_filter]

/-- C6 counterexample: the scorer does *not* count occurrences — each
keyword contributes at most once.  On the text `"gain gain"` the claim's
occurrence-count formula gives `(2−0)/(2+0+1) = 2/3`, but the code counts
the word `gain` once and returns `(1−0)/(1+0+1) = 1/2`. -/
theorem sentiment_counts_each_word_once :
    DataIngestion.analyze_sentiment "gain gain" = 1 / 2 ∧
    DataIngestion.sentiment_spec_occurrences "gain gain" = 2 / 3 ∧
    (1 / 2 : ℚ) ≠ 2 / 3 := by
  refine ⟨?_, ?_, by norm_num⟩ <;> with_unfolding_all decide

/-- C6 amended: the scorer returns 0 for empty text or when no keyword of
either fixed set occurs as a substring of the lower-cased text; otherwise,
with `pos` and `neg` the numbers of *distinct* keywords of each set
occurring (a repeated word still contributes 1), it returns
`(pos−neg)/(pos+neg+1)` clamped to `[−1, 1]`; the result always lies in
`[−1, 1]`. -/
theorem sentiment_formula (text : String) :
    (text.data = [] → DataIngestion.analyze_sentiment text = 0) ∧
    (DataIngestion.positive_words.countP (fun w =>
        DataIngestion.containsSub w.data (text.data.map Char.toLower)) = 0 →
      DataIngestion.negative_words.countP (fun w =>
        DataIngestion.containsSub w.data (text.data.map Char.toLower)) = 0 →
      DataIngestion.analyze_sentiment text = 0) ∧
    (text.data ≠ [] →
      ∀ p n : ℕ,
        p = DataIngestion.positive_words.countP (fun w =>
          DataIngestion.containsSub w.data (text.data.map Char.toLower)) →
        n = DataIngestion.negative_words.countP (fun w =>
          DataIngestion.containsSub w.data (text.data.map Char.toLower)) →
        ¬(p = 0 ∧ n = 0) →
        DataIngestion.analyze_sentiment text
          = min (max (((p : ℚ) - (n : ℚ)) / ((p : ℚ) + (n : ℚ) + 1)) (-1)) 1) ∧
    -1 ≤ DataIngestion.analyze_sentiment text ∧
    DataIngestion.analyze_sentiment text ≤ 1 := by
  rw [analyze_sentiment_eq]
  by_cases he : text.data = []
  · rw [if_pos he]
    exact ⟨fun _ => rfl, fun _ _ => rfl, fun hne => absurd he hne,
      by norm_num, by norm_num⟩
  · rw [if_neg he]
    dsimp only
    by_cases hz : DataIngestion.positive_words.countP (fun w =>
        DataIngestion.containsSub w.data (text.data.map Char.toLower)) = 0 ∧
        DataIngestion.negative_words.countP (fun w =>
        DataIngestion.containsSub w.data (text.data.map Char.toLower)) = 0
    · rw [if_pos hz]
      exact ⟨fun h => absurd h he, fun _ _ => rfl,
        fun _ p n hp hn hpn => absurd ⟨hp.trans hz.1, hn.trans hz.2⟩ hpn,
        by norm_num, by norm_num⟩
    · rw [if_neg hz]
      refine ⟨fun h => absurd h he, fun h1 h2 => absurd ⟨h1, h2⟩ hz,
        fun _ p n hp hn _ => by rw [hp, hn], ?_, min_le_right _ _⟩
      exact le_min (le_trans (by norm_num) (le_max_right _ (-1))) (by norm_num)

/-- Witness for C6's amended statement: `"profit"` contains one positive
keyword and no negative one, scoring `(1−0)/(1+0+1) = 1/2`. -/
theorem sentiment_formula_witness :
    DataIngestion.analyze_sentiment "profit" = 1 / 2 := by
  have h := (sentiment_formula "profit").2.2.1 (by with_unfolding_all decide)
    (DataIngestion.positive_words.countP (fun w =>
      DataIngestion.containsSub w.data ("profit".data.map Char.toLower)))
    (DataIngestion.negative_words.countP (fun w =>
      DataIngestion.containsSub w.data ("profit".data.map Char.toLower)))
    rfl rfl (by with_unfolding_all decide)
  rw [h]
  with_unfolding_all decide

/-- C7: with a volume column present, `validate_breakout` accepts exactly
when the current bar's volume reaches 1.5× the trailing-20 mean *and* the
close is at least 0.5% beyond the level in the expected direction; absent
a volume column it always accepts.  With a close 1% above the level,
volume at 1.4× the 20-bar average is rejected while 1.6× is accepted. -/
theorem validate_breakout_spec (vs closes : List ℚ) (level : ℚ)
    (dir : ChartPatterns.BreakoutDir) (_hv : vs ≠ []) (_hc : closes ≠ []) :
    (ChartPatterns.validate_breakout (some vs) closes level dir = true ↔
      (ChartPatterns.tailMean 20 vs * (3 / 2) ≤ vs.getLastD 0 ∧
        match dir with
        | .up => level * (1005 / 1000) < closes.getLastD 0
        | .down => closes.getLastD 0 < level * (995 / 1000))) ∧
    ChartPatterns.validate_breakout none closes level dir = true ∧
    ChartPatterns.validate_breakout
      (some (List.replicate 19 (93 / 95) ++ [7 / 5])) [101] 100 .up
      = false ∧
    ChartPatterns.validate_breakout
      (some (List.replicate 19 (92 / 95) ++ [8 / 5])) [101] 100 .up
      = true := by
  refine ⟨?_, rfl, by with_unfolding_all decide, by with_unfolding_all decide⟩
  cases dir <;>
    simp [ChartPatterns.validate_breakout, Bool.and_eq_true,
      decide_eq_true_eq]

/-- Witness for C7: the 1.6×-volume, 1%-breach example is accepted, via
the volume-and-price characterization. -/
theorem validate_breakout_spec_witness :
    ChartPatterns.validate_breakout
      (some (List.replicate 19 (92 / 95) ++ [8 / 5])) [101] 100 .up
      = true :=
  (validate_breakout_spec (List.replicate 19 (92 / 95) ++ [8 / 5]) [101]
      100 .up (by with_unfolding_all decide)
      (by with_unfolding_all decide)).1.mpr
    (by constructor <;> with_unfolding_all decide)

/-- Helper: the filter loop of `generate_signal` raises `AttributeError`
whenever some pattern passes the breakout and fake checks, because the
strategy object carries no `min_pattern_strength` attribute. -/
theorem filter_valid_error_of_confirmed :
    ∀ ps : List ChartPatterns.Pattern,
      (∃ p ∈ ps, p.breakout = true ∧ p.is_fake = false) →
      ChartPatterns.filter_valid ChartPatterns.chartPatternStrategyInit ps
        = .error .attributeError
  | [], h => absurd h (by simp)
  | p :: ps, h => by
    unfold ChartPatterns.filter_valid
    by_cases hb : p.breakout = false
    · rw [if_pos hb]
      apply filter_valid_error_of_confirmed ps
      rcases h with ⟨q, hq, hqb, hqf⟩
      rcases List.mem_cons.mp hq with rfl | hmem
      · rw [hqb] at hb
        cases hb
      · exact ⟨q, hmem, hqb, hqf⟩
    · rw [if_neg hb]
      by_cases hf : p.is_fake = true
      · rw [if_pos hf]
        apply filter_valid_error_of_confirmed ps
        rcases h with ⟨q, hq, hqb, hqf⟩
        rcases List.mem_cons.mp hq with rfl | hmem
        · rw [hf] at hqf
          cases hqf
        · exact ⟨q, hmem, hqb, hqf⟩
      · rw [if_neg hf]
        rfl

/-- C2 (code bug): whenever the detectors return at least one pattern with
a confirmed breakout that is not flagged fake, `generate_signal` does not
return a BUY/SELL signal — it raises `AttributeError`, because the
strength filter reads `self.min_pattern_strength`, an attribute set on
the detector but never on the strategy object.  The ranking and
signal-emission code below the filter is unreachable. -/
theorem generate_signal_attribute_error
    (patterns : List ChartPatterns.Pattern) (current_price : ℚ)
    (h : ∃ p ∈ patterns, p.breakout = true ∧ p.is_fake = false) :
    ChartPatterns.generate_signal ChartPatterns.chartPatternStrategyInit
      patterns current_price = .error .attributeError := by
  unfold ChartPatterns.generate_signal
  have hne : ¬ (patterns.isEmpty = true) := by
    rcases h with ⟨p, hp, _⟩
    cases patterns with
    | nil => cases hp
    | cons a as => simp [List.isEmpty]
  rw [if_neg hne, filter_valid_error_of_confirmed patterns h]

/-- Witness for C2: a concrete confirmed Double-Bottom-style pattern makes
`generate_signal` raise instead of emitting the BUY signal. -/
theorem generate_signal_attribute_error_witness :
    ChartPatterns.generate_signal ChartPatterns.chartPatternStrategyInit
      [{ name := "Double Bottom", ptype := .Bullish, breakout := true,
         is_fake := false, strength := none, confidence := 13 / 20,
         support := some 95, resistance := some 100, target := some 105 }]
      101 = .error .attributeError :=
  generate_signal_attribute_error _ 101
    ⟨_, List.mem_singleton_self _, rfl, rfl⟩
